import Mathlib

/-!
Verification of the Finance Tracker server (`src/server.js`).

JavaScript numbers are modelled as rationals (ℚ); `Math.round x` is `⌊x + 1/2⌋`
(JS rounds halves toward positive infinity), and `Number(x.toFixed(6))` is the
analogous rounding at six decimals.  Date strings are kept as `String` and
parsed by `dateParse`, which mirrors the server's `^\d{4}-\d{2}-\d{2}$`
regular-expression check followed by `new Date(s + "T00:00:00")` validity (the
server is assumed to run in UTC, so local midnight equals UTC midnight and day
differences are exact multiples of 24 hours).  The historical price lookup used
by the dashboard is modelled as a pure capability `String → Option ℚ`, matching
the specification's `resolve(date) -> price | null`; the stateful
cache-and-fetch resolver itself is modelled separately (`getSolPriceForDate`)
with the outcome of the external CoinGecko call supplied as an oracle argument.
-/

namespace FinanceTracker

/-- JS `Math.round`: round half toward positive infinity. -/
def jsRound (q : ℚ) : ℤ := ⌊q + 1/2⌋

/-- The function moneyRound from server.js: `Math.round(value * 100) / 100`. -/
def moneyRound (q : ℚ) : ℚ := (jsRound (q * 100) : ℚ) / 100

/-- The function calculateCashback from server.js: `Math.round(amount * rate * 100) / 100`. -/
def calculateCashback (amount rate : ℚ) : ℚ := (jsRound (amount * rate * 100) : ℚ) / 100

/-- JS `Number(x.toFixed(6))` as used for the staking figures: round to six
decimals, halves toward positive infinity. -/
def round6 (q : ℚ) : ℚ := (jsRound (q * 1000000) : ℚ) / 1000000

/-- A calendar date as parsed from a `YYYY-MM-DD` string. -/
structure YMD where
  year : Nat
  month : Nat
  day : Nat
deriving DecidableEq

def isDigitCh (c : Char) : Bool := 48 ≤ c.toNat && c.toNat ≤ 57

def digitVal (c : Char) : Nat := c.toNat - 48

def isLeapYear (y : Nat) : Bool := (y % 4 == 0 && y % 100 != 0) || y % 400 == 0

def daysInMonth (y m : Nat) : Nat :=
  if m = 2 then (if isLeapYear y then 29 else 28)
  else if m = 4 ∨ m = 6 ∨ m = 9 ∨ m = 11 then 30
  else 31

/-- Parse a date string the way the server does: the regular expression
`^\d{4}-\d{2}-\d{2}$`, followed by `new Date(s + "T00:00:00")`, which yields an
Invalid Date (modelled as `none`) unless the month is 1–12 and the day is within
the month's length in the proleptic Gregorian calendar. -/
def dateParse (s : String) : Option YMD :=
  match s.toList with
  | [y1, y2, y3, y4, s1, m1, m2, s2, d1, d2] =>
    if s1 = '-' ∧ s2 = '-' ∧
        (y1 :: y2 :: y3 :: y4 :: m1 :: m2 :: d1 :: d2 :: []).all isDigitCh then
      let y := digitVal y1 * 1000 + digitVal y2 * 100 + digitVal y3 * 10 + digitVal y4
      let m := digitVal m1 * 10 + digitVal m2
      let d := digitVal d1 * 10 + digitVal d2
      if 1 ≤ m ∧ m ≤ 12 ∧ 1 ≤ d ∧ d ≤ daysInMonth y m then some ⟨y, m, d⟩ else none
    else none
  | _ => none

/-- Rata-die style day count (shifted by a constant 400000-year offset so it
stays in ℕ); differences of `dayNumber` equal the exact day differences the
server computes as `(dateA - dateB) / (1000*60*60*24)` between UTC midnights. -/
def dayNumber (dt : YMD) : Nat :=
  let y := if dt.month ≤ 2 then dt.year + 399999 else dt.year + 400000
  let m := if dt.month ≤ 2 then dt.month + 12 else dt.month
  365 * y + y / 4 - y / 100 + y / 400 + 153 * (m + 1) / 5 + dt.day

/-- The ECMAScript WhiteSpace and LineTerminator characters (the set skipped
by `parseInt` and stripped by `String.prototype.trim`): TAB, LF, VT, FF, CR,
SP, NBSP, U+1680, U+2000–U+200A, LS, PS, U+202F, U+205F, U+3000 and ZWNBSP. -/
def isJsWhitespace (c : Char) : Bool :=
  c = ' ' || c = '\t' || c = '\n' || c = '\r' ||
  c.toNat = 0xB || c.toNat = 0xC || c.toNat = 0xA0 || c.toNat = 0x1680 ||
  (0x2000 ≤ c.toNat && c.toNat ≤ 0x200A) ||
  c.toNat = 0x2028 || c.toNat = 0x2029 || c.toNat = 0x202F ||
  c.toNat = 0x205F || c.toNat = 0x3000 || c.toNat = 0xFEFF

/-- JS `String.prototype.trim()`: strip whitespace from both ends. -/
def jsTrim (s : String) : String :=
  ⟨((s.toList.dropWhile isJsWhitespace).reverse.dropWhile isJsWhitespace).reverse⟩

/-- A stored transaction (one element of `transactions.json`).  The `category`
field is `Option String` because stored records may lack it; JS string
truthiness (`t.category || "Uncategorized"`) is modelled by
`categoryOrDefault`. -/
structure Tx where
  id : String
  date : String
  description : String
  category : Option String
  amount : ℚ
deriving DecidableEq

/-- JS `transaction.category || "Uncategorized"`: both a missing field and an
empty string are falsy. -/
def categoryOrDefault (c : Option String) : String :=
  match c with
  | some s => if s = "" then "Uncategorized" else s
  | none => "Uncategorized"

/-- The month filter used by both `/api/monthly` and `/api/dashboard`:
`new Date(t.date + "T00:00:00")` then compare `getFullYear()` and
`getMonth() + 1`.  An Invalid Date has NaN fields, which compare unequal to
everything, so unparseable dates are filtered out. -/
def txInMonth (t : Tx) (year month : ℤ) : Bool :=
  match dateParse t.date with
  | some d => decide ((d.year : ℤ) = year) && decide ((d.month : ℤ) = month)
  | none => false

/-- The function filterByMonth from server.js. -/
def filterByMonth (txs : List Tx) (year month : ℤ) : List Tx :=
  txs.filter (fun t => txInMonth t year month)

/-! ## GET /api/monthly -/

/-- One element of the `transactions` array in the `/api/monthly` response. -/
structure MonthlyTx where
  id : String
  date : String
  description : String
  category : String
  amount : ℚ
  cashback : ℚ
deriving DecidableEq

/-- The `totals` object in the `/api/monthly` response. -/
structure MonthlyTotals where
  spent : ℚ
  cashback : ℚ
  count : Nat
deriving DecidableEq

/-- The `/api/monthly` response (year/month label omitted). -/
structure MonthlyResponse where
  year : ℤ
  month : ℤ
  totals : MonthlyTotals
  categorySummary : List (String × ℚ)
  transactions : List MonthlyTx
deriving DecidableEq

/-- Keys of a JS object built by insertion, in first-occurrence order (the
iteration order of `Object.keys` for non-index string keys). -/
def firstKeys : List String → List String
  | [] => []
  | c :: rest => c :: (firstKeys rest).filter (fun x => x ≠ c)

/-- The handler of `GET /api/monthly`: filter the stored transactions to the
requested month, attach a cashback to each, total spend and cashback (rounded
to cents at the end), and total each category's amounts (rounded to cents at
the end). -/
def monthlyEndpoint (txs : List Tx) (year month : ℤ) (cashbackRate : ℚ) :
    MonthlyResponse :=
  let monthTx := filterByMonth txs year month
  let transactionsWithCashback := monthTx.map (fun t =>
    { id := t.id, date := t.date, description := t.description,
      category := categoryOrDefault t.category, amount := t.amount,
      cashback := calculateCashback t.amount cashbackRate : MonthlyTx })
  let spentRaw := monthTx.foldl (fun s t => s + t.amount) 0
  let cashbackRaw := transactionsWithCashback.foldl (fun s t => s + t.cashback) 0
  let catKeys := firstKeys (monthTx.map (fun t => categoryOrDefault t.category))
  let categorySummary := catKeys.map (fun c =>
    (c, moneyRound ((monthTx.filter (fun t => categoryOrDefault t.category = c)).foldl
          (fun s t => s + t.amount) 0)))
  { year := year, month := month,
    totals := { spent := moneyRound spentRaw, cashback := moneyRound cashbackRaw,
                count := monthTx.length },
    categorySummary := categorySummary,
    transactions := transactionsWithCashback }

/-! ## GET /api/dashboard -/

/-- Accumulator of the dashboard's per-month SOL simulation loop. -/
structure SolSim where
  totalCashbackUSD : ℚ
  totalSOL : ℚ
  skipped : Nat
deriving DecidableEq

/-- One iteration of the SOL simulation loop: add the transaction's rounded
cashback; if its date's price resolves, buy `cashbackUSD / priceUSD` SOL,
otherwise count the transaction as skipped. -/
def solSimStep (rate : ℚ) (priceOf : String → Option ℚ) (acc : SolSim) (t : Tx) :
    SolSim :=
  let cashbackUSD := moneyRound (t.amount * rate)
  match priceOf t.date with
  | some priceUSD =>
    { totalCashbackUSD := acc.totalCashbackUSD + cashbackUSD,
      totalSOL := acc.totalSOL + cashbackUSD / priceUSD,
      skipped := acc.skipped }
  | none =>
    { totalCashbackUSD := acc.totalCashbackUSD + cashbackUSD,
      totalSOL := acc.totalSOL,
      skipped := acc.skipped + 1 }

/-- The dashboard's SOL simulation over the in-month transactions. -/
def solSimRun (rate : ℚ) (priceOf : String → Option ℚ) (txs : List Tx) : SolSim :=
  txs.foldl (solSimStep rate priceOf) ⟨0, 0, 0⟩

/-- Accumulator of the dashboard's cumulative staking loop. -/
structure Accrual where
  earnedSOL : ℚ
  skipped : Nat
deriving DecidableEq

/-- One iteration of the cumulative staking loop over ALL transactions:
future-dated transactions are skipped outright (`txDate > asOf` → continue);
a transaction whose price does not resolve increments the skip counter; one
whose price resolves accrues `solBought * APR * (daysStaked / 365)` where
`daysStaked = max(0, floor((asOf - txDate) / 1 day))`, which for UTC midnights
is the truncated difference of day numbers.  A stored record whose date string
does not parse is processed by the server (NaN compares false), producing NaN
arithmetic outside the rational model; every theorem touching this loop
therefore assumes parseable dates (the spec's data-model invariant), making the
`none` branch here unreachable in any statement proved about it. -/
def accrualStep (rate apr : ℚ) (priceOf : String → Option ℚ) (todayNum : Nat)
    (acc : Accrual) (t : Tx) : Accrual :=
  match dateParse t.date with
  | some d =>
    if todayNum < dayNumber d then acc
    else
      let cashbackUSD := moneyRound (t.amount * rate)
      match priceOf t.date with
      | none => { acc with skipped := acc.skipped + 1 }
      | some price =>
        { acc with earnedSOL := acc.earnedSOL +
            (cashbackUSD / price) * apr * (((todayNum - dayNumber d : Nat) : ℚ) / 365) }
  | none => { acc with skipped := acc.skipped + 1 }

/-- The dashboard's cumulative staking accrual over all transactions. -/
def accrualRun (rate apr : ℚ) (priceOf : String → Option ℚ) (todayNum : Nat)
    (txs : List Tx) : Accrual :=
  txs.foldl (accrualStep rate apr priceOf todayNum) ⟨0, 0⟩

/-- The `/api/dashboard` response (period label omitted; the `sol.totalSOL` and
`staking.stakedSOL` response fields are the single `stakedSOL` value). -/
structure DashboardResponse where
  year : ℤ
  month : ℤ
  count : Nat
  totalSpent : ℚ
  cashbackRate : ℚ
  totalCashbackUSD : ℚ
  solTotalCashbackUSD : ℚ
  stakedSOL : ℚ
  solAvgPriceUSD : Option ℚ
  solSkipped : Nat
  stakingAPR : ℚ
  estMonthlyRewardSOL : ℚ
  estYearlyRewardSOL : ℚ
  earnedSOL : ℚ
  earnedUSD : ℚ
  skippedToDate : Nat
  todayPriceUSD : Option ℚ
deriving DecidableEq

/-- The handler of `GET /api/dashboard` after query validation, with price
resolution abstracted as the pure capability `priceOf` and today's date
(`new Date().toISOString().split("T")[0]`) supplied as `todayStr`. -/
def dashboardEndpoint (txs : List Tx) (year month : ℤ) (cashbackRate stakingAPR : ℚ)
    (priceOf : String → Option ℚ) (todayStr : String) : DashboardResponse :=
  let monthTx := filterByMonth txs year month
  let totalSpent := monthTx.foldl (fun s t => s + t.amount) 0
  let totalCashbackUSD := moneyRound (totalSpent * cashbackRate)
  let sim := solSimRun cashbackRate priceOf monthTx
  let solAvgPriceUSD :=
    if 0 < sim.totalSOL then some (moneyRound (sim.totalCashbackUSD / sim.totalSOL))
    else none
  let stakedSOL := round6 sim.totalSOL
  let todayNum := match dateParse todayStr with
    | some d => dayNumber d
    | none => 0
  let accrual := accrualRun cashbackRate stakingAPR priceOf todayNum txs
  let todayPriceUSD := priceOf todayStr
  let earnedUSD := match todayPriceUSD with
    | some p => moneyRound (accrual.earnedSOL * p)
    | none => 0
  { year := year, month := month,
    count := monthTx.length,
    totalSpent := moneyRound totalSpent,
    cashbackRate := cashbackRate,
    totalCashbackUSD := totalCashbackUSD,
    solTotalCashbackUSD := moneyRound sim.totalCashbackUSD,
    stakedSOL := stakedSOL,
    solAvgPriceUSD := solAvgPriceUSD,
    solSkipped := sim.skipped,
    stakingAPR := stakingAPR,
    estMonthlyRewardSOL := round6 (stakedSOL * (stakingAPR / 12)),
    estYearlyRewardSOL := round6 (stakedSOL * stakingAPR),
    earnedSOL := round6 accrual.earnedSOL,
    earnedUSD := earnedUSD,
    skippedToDate := accrual.skipped,
    todayPriceUSD := todayPriceUSD }

/-! ## DELETE /api/transactions/:id -/

/-- The handler of `DELETE /api/transactions/:id`: `findIndex` on the id then
`splice(index, 1)`.  The result is the stored list after the request together
with `some deletedId` for a 200 response or `none` for a 404 (in which case the
file is not rewritten). -/
def deleteEndpoint (txs : List Tx) (id : String) : List Tx × Option String :=
  match txs.findIdx? (fun t => t.id = id) with
  | none => (txs, none)
  | some i => (txs.eraseIdx i, some id)

/-- Removal of the first transaction carrying an id, stated the way the claim
reads ("removes exactly one entry, the first with that id"); compared against
`deleteEndpoint`'s `findIndex`/`splice` implementation. -/
def removeFirstById : List Tx → String → List Tx
  | [], _ => []
  | t :: rest, id => if t.id = id then rest else t :: removeFirstById rest id

/-! ## POST /api/transactions -/

/-- The request body of `POST /api/transactions`. -/
structure PostBody where
  date : String
  description : String
  category : Option String
  amount : ℚ
deriving DecidableEq

/-- The category actually stored: the trimmed request category when it is a
non-empty string, else `"Uncategorized"`. -/
def validCategory (category : Option String) : String :=
  match category with
  | some c => if jsTrim c = "" then "Uncategorized" else jsTrim c
  | none => "Uncategorized"

/-- The handler of `POST /api/transactions`: validate description, amount and
date (regex plus `new Date` validity, merged into `dateParse`), then append the
new record.  Id generation (`Date.now() + random suffix`) is nondeterministic
and is supplied as `newId`.  `.error` carries the 400 message; `.ok` carries
the new stored list and the created transaction (the 201 body). -/
def postTransaction (txs : List Tx) (body : PostBody) (newId : String) :
    Except String (List Tx × Tx) :=
  if jsTrim body.description = "" then
    .error "description is required and must be a non-empty string"
  else if body.amount ≤ 0 then
    .error "amount must be a positive number"
  else
    match dateParse body.date with
    | none => .error "date is required and must be in YYYY-MM-DD format"
    | some _ =>
      let newTx : Tx := { id := newId, date := body.date,
                          description := jsTrim body.description,
                          category := some (validCategory body.category),
                          amount := body.amount }
      .ok (txs ++ [newTx], newTx)

/-! ## Price resolver and price cache -/

/-- The truthiness test `if (cache.sol[dateString])`: an absent entry and a
cached price of 0 are both falsy, so both count as a miss. -/
def cacheHit (cache : String → Option ℚ) (d : String) : Option ℚ :=
  match cache d with
  | some p => if p = 0 then none else some p
  | none => none

/-- Result of one call to the historical price resolver: the returned price (or
`null`), the persisted cache afterwards, and whether the external API was hit. -/
structure ResolveResult where
  price : Option ℚ
  cache : String → Option ℚ
  apiCalled : Bool

/-- The function getSolPriceForDate from server.js, with the outcome of the external
CoinGecko fetch supplied as an oracle (`some p` = the API returned price `p`,
`none` = the fetch threw): on a truthy cached value return it; otherwise fetch,
and on success store the price in the cache and return it, on failure return
`null` without throwing. -/
def getSolPriceForDate (cache : String → Option ℚ) (dateString : String)
    (fetchOutcome : Option ℚ) : ResolveResult :=
  match cacheHit cache dateString with
  | some p => { price := some p, cache := cache, apiCalled := false }
  | none =>
    match fetchOutcome with
    | some price =>
      { price := some price,
        cache := fun d => if d = dateString then some price else cache d,
        apiCalled := true }
    | none => { price := none, cache := cache, apiCalled := true }

/-- Result of `GET /api/price/sol`: HTTP status, body price, the persisted
cache afterwards, and whether the external API was hit. -/
structure PriceSolResult where
  status : Nat
  price : Option ℚ
  cache : String → Option ℚ
  apiCalled : Bool

/-- The handler of `GET /api/price/sol?date=...`: 400 on a missing, empty or
invalid date; a truthy cached value is served from cache; otherwise fetch from
the API, returning 502 on failure (cache untouched) and storing the fetched
price on success. -/
def priceSolEndpoint (cache : String → Option ℚ) (date : Option String)
    (fetchOutcome : Option ℚ) : PriceSolResult :=
  match date with
  | none => { status := 400, price := none, cache := cache, apiCalled := false }
  | some d =>
    if (dateParse d).isNone then
      { status := 400, price := none, cache := cache, apiCalled := false }
    else
      match cacheHit cache d with
      | some p => { status := 200, price := some p, cache := cache, apiCalled := false }
      | none =>
        match fetchOutcome with
        | none => { status := 502, price := none, cache := cache, apiCalled := true }
        | some p =>
          { status := 200, price := some p,
            cache := fun x => if x = d then some p else cache x,
            apiCalled := true }

/-! ## Query parameter validation (parseYearMonth) -/

def digitsToNat (l : List Char) : Nat := l.foldl (fun n c => 10 * n + digitVal c) 0

def isHexDigitCh (c : Char) : Bool :=
  isDigitCh c || (97 ≤ c.toNat && c.toNat ≤ 102) || (65 ≤ c.toNat && c.toNat ≤ 70)

def hexVal (c : Char) : Nat :=
  if c.toNat ≤ 57 then c.toNat - 48
  else if c.toNat ≤ 70 then c.toNat - 55
  else c.toNat - 87

def hexDigitsToNat (l : List Char) : Nat := l.foldl (fun n c => 16 * n + hexVal c) 0

/-- The longest leading decimal digit run; `none` (NaN) when it is empty. -/
def jsParseIntDec (l : List Char) (sign : ℤ) : Option ℤ :=
  let ds := l.takeWhile isDigitCh
  if ds.isEmpty then none else some (sign * (digitsToNat ds : ℤ))

/-- JS `parseInt` after whitespace and sign handling: a `0x`/`0X` prefix
switches to hexadecimal (the longest run of hex digits, NaN when empty);
anything else is parsed as the longest run of decimal digits. -/
def jsParseIntCore (l : List Char) (sign : ℤ) : Option ℤ :=
  match l with
  | '0' :: x :: rest =>
    if x = 'x' ∨ x = 'X' then
      let ds := rest.takeWhile isHexDigitCh
      if ds.isEmpty then none else some (sign * (hexDigitsToNat ds : ℤ))
    else jsParseIntDec ('0' :: x :: rest) sign
  | _ => jsParseIntDec l sign

/-- JS `parseInt(s)` with no radix argument: skip leading whitespace, optional
sign, then either a hexadecimal literal after a `0x`/`0X` prefix or the longest
leading decimal digit run; `none` models NaN.  Trailing garbage (including a
fractional part) is ignored. -/
def jsParseInt (s : String) : Option ℤ :=
  match s.toList.dropWhile isJsWhitespace with
  | '-' :: rest => jsParseIntCore rest (-1)
  | '+' :: rest => jsParseIntCore rest 1
  | rest => jsParseIntCore rest 1

/-- The JS conditional `param ? parseInt(param) : defaultValue`: an absent
parameter — or an empty string, which is falsy — yields the default; otherwise
`parseInt` of the string (`none` models NaN). -/
def paramValue (p : Option String) (dflt : ℤ) : Option ℤ :=
  match p with
  | some s => if s = "" then some dflt else jsParseInt s
  | none => some dflt

/-- The month half of `parseYearMonth`, reached once the year has been
validated as `y`: NaN or a value outside 1–12 throws. -/
def monthCheck (monthParam : Option String) (now : YMD) (y : ℤ) :
    Except String (ℤ × ℤ) :=
  match paramValue monthParam (now.month : ℤ) with
  | none => .error "Invalid month. Must be between 1 and 12"
  | some m =>
    if m < 1 ∨ 12 < m then .error "Invalid month. Must be between 1 and 12"
    else .ok (y, m)

/-- The function parseYearMonth from server.js: an absent parameter — or an
empty string, which is falsy — defaults to the current year/month; otherwise
`parseInt` is applied and the result validated (year 2000–2100 first, then
month 1–12), throwing the message of the first failing check. -/
def parseYearMonth (yearParam monthParam : Option String) (now : YMD) :
    Except String (ℤ × ℤ) :=
  match paramValue yearParam (now.year : ℤ) with
  | none => .error "Invalid year. Must be between 2000 and 2100"
  | some y =>
    if y < 2000 ∨ 2100 < y then .error "Invalid year. Must be between 2000 and 2100"
    else monthCheck monthParam now y

/-- Outcome of the dashboard handler's query validation: a 400 response with
the thrown message, or the year/month the aggregation proceeds with. -/
inductive DashboardParamResult where
  | badRequest (msg : String)
  | proceed (year month : ℤ)
deriving DecidableEq

/-- The try/catch around `parseYearMonth` in `GET /api/dashboard`. -/
def dashboardParams (yearParam monthParam : Option String) (now : YMD) :
    DashboardParamResult :=
  match parseYearMonth yearParam monthParam now with
  | .error msg => .badRequest msg
  | .ok (y, m) => .proceed y m

/-! ## Arithmetic helper lemmas -/

theorem jsRound_intCast (n : ℤ) : jsRound ((n : ℚ)) = n := by
  rw [jsRound, Int.floor_int_add]
  norm_num

theorem jsRound_nonneg (q : ℚ) (h : 0 ≤ q) : 0 ≤ jsRound q := by
  rw [jsRound, Int.floor_nonneg]
  linarith

theorem moneyRound_nonneg (q : ℚ) (h : 0 ≤ q) : 0 ≤ moneyRound q := by
  have := jsRound_nonneg (q * 100) (by positivity)
  rw [moneyRound]
  positivity

theorem moneyRound_cents (n : ℤ) : moneyRound ((n : ℚ) / 100) = (n : ℚ) / 100 := by
  rw [moneyRound, div_mul_cancel₀ _ (by norm_num : (100:ℚ) ≠ 0), jsRound_intCast]

theorem calculateCashback_eq_moneyRound (amount rate : ℚ) :
    calculateCashback amount rate = moneyRound (amount * rate) := rfl

theorem foldl_add_map_sum {α : Type} (f : α → ℚ) :
    ∀ (l : List α) (a : ℚ), l.foldl (fun s t => s + f t) a = a + (l.map f).sum
  | [], a => by simp
  | t :: rest, a => by
    simp [List.foldl_cons, foldl_add_map_sum f rest, add_assoc]

/-! ## Claim C1 -/

/-- Claim C1: for every transaction with positive amount and every cashback
rate in [0,1], the cashback attached to that transaction by `GET /api/monthly`
equals `round2(amount * cashbackRate)`, i.e. `Math.round(amount*rate*100)/100`. -/
theorem monthly_cashback_formula (txs : List Tx) (year month : ℤ) (rate : ℚ)
    (_hr0 : 0 ≤ rate) (_hr1 : rate ≤ 1) (e : MonthlyTx)
    (he : e ∈ (monthlyEndpoint txs year month rate).transactions)
    (hpos : 0 < e.amount) :
    e.cashback = moneyRound (e.amount * rate) := by
  simp only [monthlyEndpoint, List.mem_map] at he
  obtain ⟨t, ht, rfl⟩ := he
  rfl

/-- Witness for C1: a $100 purchase at a 3% rate is reported with cashback
`round2(100 * 0.03)` by the monthly endpoint. -/
theorem monthly_cashback_formula_witness :
    ({ id := "t1", date := "2026-01-03", description := "Gym",
       category := "Uncategorized", amount := 100,
       cashback := calculateCashback 100 (3/100) } : MonthlyTx).cashback
      = moneyRound ((100 : ℚ) * (3/100)) := by
  have htx : txInMonth ⟨"t1", "2026-01-03", "Gym", none, 100⟩ 2026 1 = true := by decide
  refine monthly_cashback_formula [⟨"t1", "2026-01-03", "Gym", none, 100⟩] 2026 1 (3/100)
    (by norm_num) (by norm_num) _ ?_ (by norm_num)
  simp [monthlyEndpoint, filterByMonth, htx, categoryOrDefault]

/-! ## Claim C3 -/

/-- Claim C3 (amended): in the dashboard aggregation, the reported `totalSpent`
is `round2` of the raw sum of in-month amounts, and `totalCashbackUSD` is
`round2(rawSum * cashbackRate)` computed from the UNROUNDED raw sum (not from
the already-rounded monthly total). -/
theorem dashboard_totals_formula (txs : List Tx) (year month : ℤ)
    (rate apr : ℚ) (priceOf : String → Option ℚ) (todayStr : String) :
    (dashboardEndpoint txs year month rate apr priceOf todayStr).totalSpent
        = moneyRound (((filterByMonth txs year month).map Tx.amount).sum) ∧
    (dashboardEndpoint txs year month rate apr priceOf todayStr).totalCashbackUSD
        = moneyRound ((((filterByMonth txs year month).map Tx.amount).sum) * rate) := by
  have h := foldl_add_map_sum Tx.amount (filterByMonth txs year month) 0
  rw [zero_add] at h
  constructor <;> simp [dashboardEndpoint, h]

/-- Counterexample for C3 as stated: for a single in-month transaction of
amount 0.006 at rate 0.5, the dashboard reports `totalCashbackUSD = 0.00`
(round2 of the raw product 0.003), while `round2(totalSpent * rate)` computed
from the already-rounded total `totalSpent = 0.01` would be `0.01`. -/
theorem dashboard_cashback_rounding_counterexample :
    (dashboardEndpoint [⟨"a", "2026-01-03", "x", none, 3/500⟩] 2026 1 (1/2) (473/10000)
        (fun _ => none) "2026-02-01").totalCashbackUSD
      ≠ moneyRound ((dashboardEndpoint [⟨"a", "2026-01-03", "x", none, 3/500⟩] 2026 1 (1/2)
        (473/10000) (fun _ => none) "2026-02-01").totalSpent * (1/2)) := by
  have htx : txInMonth ⟨"a", "2026-01-03", "x", none, 3/500⟩ 2026 1 = true := by decide
  simp only [dashboardEndpoint, filterByMonth, List.filter, htx, List.foldl]
  norm_num [moneyRound, jsRound]

/-! ## Claim C2 -/

theorem mem_firstKeys {x : String} : ∀ {l : List String}, x ∈ firstKeys l ↔ x ∈ l
  | [] => by simp [firstKeys]
  | c :: rest => by
    by_cases hx : x = c
    · simp [firstKeys, hx]
    · simp [firstKeys, hx, List.mem_filter, mem_firstKeys (l := rest)]

theorem nodup_firstKeys : ∀ (l : List String), (firstKeys l).Nodup
  | [] => by simp [firstKeys]
  | c :: rest => by
    refine List.Nodup.cons ?_ ((nodup_firstKeys rest).filter _)
    intro hmem
    exact (by simpa using (List.mem_filter.mp hmem).2)

theorem sum_filter_partition {α : Type} (p : α → Bool) (f : α → ℚ) :
    ∀ l : List α,
      ((l.filter p).map f).sum + ((l.filter (fun x => !(p x))).map f).sum = (l.map f).sum
  | [] => by simp
  | x :: rest => by
    have ih := sum_filter_partition p f rest
    by_cases hp : p x
    · simp only [List.filter_cons, hp, Bool.not_true, if_true]
      simp only [List.filter_cons] at *
      simp [hp, List.map_cons, List.sum_cons, ← ih, add_assoc]
    · simp only [List.filter_cons] at *
      simp only [Bool.not_eq_true] at hp
      simp [hp, List.map_cons, List.sum_cons, ← ih]
      ring

theorem sum_partition {α : Type} (key : α → String) (f : α → ℚ) :
    ∀ (ks : List String) (l : List α), ks.Nodup → (∀ x ∈ l, key x ∈ ks) →
      (ks.map (fun c => ((l.filter (fun x => key x = c)).map f).sum)).sum = (l.map f).sum
  | [], l, _, hcov => by
    cases l with
    | nil => simp
    | cons a rest => exact absurd (hcov a (by simp)) (by simp)
  | c :: ks, l, hnd, hcov => by
    have hnotmem : c ∉ ks := (List.nodup_cons.mp hnd).1
    have hnd' : ks.Nodup := (List.nodup_cons.mp hnd).2
    have hcov' : ∀ x ∈ l.filter (fun x => !(decide (key x = c))), key x ∈ ks := by
      intro x hx
      rcases List.mem_filter.mp hx with ⟨hxl, hxc⟩
      have hxc' : key x ≠ c := by simpa using hxc
      cases List.mem_cons.mp (hcov x hxl) with
      | inl h => exact absurd h hxc'
      | inr h => exact h
    have ih := sum_partition key f ks (l.filter (fun x => !(decide (key x = c)))) hnd' hcov'
    have hsame : ∀ k ∈ ks,
        ((l.filter (fun x => !(decide (key x = c)))).filter (fun x => key x = k)).map f
          = (l.filter (fun x => key x = k)).map f := by
      intro k hk
      have hkc : k ≠ c := fun h => hnotmem (h ▸ hk)
      congr 1
      rw [List.filter_filter]
      refine List.filter_congr ?_
      intro x _
      by_cases hxk : key x = k
      · simp [hxk, hkc]
      · simp [hxk]
    calc (List.map (fun c => ((l.filter (fun x => key x = c)).map f).sum) (c :: ks)).sum
        = ((l.filter (fun x => key x = c)).map f).sum
            + (ks.map (fun k => ((l.filter (fun x => key x = k)).map f).sum)).sum := by
          simp
      _ = ((l.filter (fun x => key x = c)).map f).sum
            + (ks.map (fun k =>
                (((l.filter (fun x => !(decide (key x = c)))).filter
                    (fun x => key x = k)).map f).sum)).sum := by
          congr 1
          refine (List.map_congr_left ?_).symm ▸ rfl
          intro k hk
          rw [hsame k hk]
      _ = ((l.filter (fun x => key x = c)).map f).sum
            + ((l.filter (fun x => !(decide (key x = c)))).map f).sum := by rw [ih]
      _ = (l.map f).sum := by
          have := sum_filter_partition (fun x => decide (key x = c)) f l
          simpa using this

theorem sum_cents {α : Type} (f : α → ℚ) :
    ∀ (l : List α), (∀ x ∈ l, ∃ n : ℤ, f x = (n : ℚ) / 100) →
      ∃ m : ℤ, (l.map f).sum = (m : ℚ) / 100
  | [], _ => ⟨0, by simp⟩
  | x :: rest, h => by
    obtain ⟨n, hn⟩ := h x (by simp)
    obtain ⟨m, hm⟩ := sum_cents f rest (fun y hy => h y (by simp [hy]))
    refine ⟨n + m, ?_⟩
    rw [List.map_cons, List.sum_cons, hn, hm]
    push_cast
    ring

/-- Claim C2 (amended): when every amount in the stored list is a whole number
of cents, the sum of the per-category totals reported by the monthly endpoint
equals the reported total spend for that month. -/
theorem categorySummary_sum_cents (txs : List Tx) (year month : ℤ) (rate : ℚ)
    (hc : ∀ t ∈ txs, ∃ n : ℤ, t.amount = (n : ℚ) / 100) :
    (((monthlyEndpoint txs year month rate).categorySummary).map Prod.snd).sum
      = (monthlyEndpoint txs year month rate).totals.spent := by
  have hcm : ∀ t ∈ filterByMonth txs year month, ∃ n : ℤ, t.amount = (n : ℚ) / 100 :=
    fun t ht => hc t (List.mem_of_mem_filter ht)
  have hfoldl := foldl_add_map_sum Tx.amount (filterByMonth txs year month) 0
  rw [zero_add] at hfoldl
  have hround : ∀ c : String,
      moneyRound (((filterByMonth txs year month).filter
          (fun t => categoryOrDefault t.category = c)).foldl (fun s t => s + t.amount) 0)
        = (((filterByMonth txs year month).filter
          (fun t => categoryOrDefault t.category = c)).map Tx.amount).sum := by
    intro c
    have h := foldl_add_map_sum Tx.amount
      ((filterByMonth txs year month).filter (fun t => categoryOrDefault t.category = c)) 0
    rw [zero_add] at h
    rw [h]
    obtain ⟨m, hm⟩ := sum_cents Tx.amount _
      (fun t ht => hcm t (List.mem_of_mem_filter ht))
    rw [hm, moneyRound_cents]
  obtain ⟨m, hm⟩ := sum_cents Tx.amount _ hcm
  simp only [monthlyEndpoint, List.map_map]
  have hmapped : (List.map (Prod.snd ∘ fun c =>
      (c, moneyRound (((filterByMonth txs year month).filter
        (fun t => categoryOrDefault t.category = c)).foldl (fun s t => s + t.amount) 0)))
      (firstKeys ((filterByMonth txs year month).map fun t => categoryOrDefault t.category)))
      = (List.map (fun c => (((filterByMonth txs year month).filter
          (fun t => categoryOrDefault t.category = c)).map Tx.amount).sum)
        (firstKeys ((filterByMonth txs year month).map fun t => categoryOrDefault t.category))) := by
    refine List.map_congr_left ?_
    intro c _
    simpa using hround c
  rw [hmapped]
  rw [sum_partition (fun t => categoryOrDefault t.category) Tx.amount _ _
    (nodup_firstKeys _)
    (fun x hx => mem_firstKeys.mpr (List.mem_map.mpr ⟨x, hx, rfl⟩))]
  rw [hfoldl, hm, moneyRound_cents]

/-- Counterexample for C2 as stated: two half-cent transactions in different
categories.  Each category total rounds 0.005 up to 0.01, so the per-category
totals sum to 0.02, while the total spend 0.01 rounds to 0.01. -/
theorem categorySummary_sum_counterexample :
    (((monthlyEndpoint [⟨"a", "2026-01-03", "x", some "A", 1/200⟩,
          ⟨"b", "2026-01-04", "y", some "B", 1/200⟩] 2026 1 (3/100)).categorySummary).map
        Prod.snd).sum
      ≠ (monthlyEndpoint [⟨"a", "2026-01-03", "x", some "A", 1/200⟩,
          ⟨"b", "2026-01-04", "y", some "B", 1/200⟩] 2026 1 (3/100)).totals.spent := by
  have h1 : txInMonth ⟨"a", "2026-01-03", "x", some "A", 1/200⟩ 2026 1 = true := by decide
  have h2 : txInMonth ⟨"b", "2026-01-04", "y", some "B", 1/200⟩ 2026 1 = true := by decide
  have hBA : ("B" : String) ≠ "A" := by decide
  simp only [monthlyEndpoint, filterByMonth, List.filter, h1, h2, categoryOrDefault,
    firstKeys, List.map, List.foldl]
  norm_num [hBA, moneyRound, jsRound]

/-- Witness for the amended C2: a single whole-dollar transaction, where the
category totals sum exactly to the reported spend. -/
theorem categorySummary_sum_cents_witness :
    (((monthlyEndpoint [⟨"a", "2026-01-03", "x", some "A", 100⟩] 2026 1
          (3/100)).categorySummary).map Prod.snd).sum
      = (monthlyEndpoint [⟨"a", "2026-01-03", "x", some "A", 100⟩] 2026 1
          (3/100)).totals.spent := by
  refine categorySummary_sum_cents _ 2026 1 (3/100) ?_
  intro t ht
  have : t = ⟨"a", "2026-01-03", "x", some "A", 100⟩ := by simpa using ht
  exact ⟨10000, by rw [this]; norm_num⟩

/-! ## Claim C4 -/

theorem solSim_totalSOL_nonneg (rate : ℚ) (priceOf : String → Option ℚ)
    (hr : 0 ≤ rate) (hp : ∀ s p, priceOf s = some p → 0 < p) :
    ∀ (txs : List Tx) (acc : SolSim), (∀ t ∈ txs, 0 < t.amount) → 0 ≤ acc.totalSOL →
      0 ≤ (txs.foldl (solSimStep rate priceOf) acc).totalSOL
  | [], acc, _, hacc => hacc
  | t :: rest, acc, hpos, hacc => by
    rw [List.foldl_cons]
    refine solSim_totalSOL_nonneg rate priceOf hr hp rest _
      (fun x hx => hpos x (by simp [hx])) ?_
    have hcb : 0 ≤ moneyRound (t.amount * rate) :=
      moneyRound_nonneg _ (mul_nonneg (le_of_lt (hpos t (by simp))) hr)
    rcases hpo : priceOf t.date with _ | p
    · simpa [solSimStep, hpo] using hacc
    · have hppos := hp t.date p hpo
      simp only [solSimStep, hpo]
      have : 0 ≤ moneyRound (t.amount * rate) / p := div_nonneg hcb (le_of_lt hppos)
      exact add_nonneg hacc this

/-- Claim C4: for a transaction list of positive amounts, positive resolved
prices and a nonnegative cashback rate (the settings invariant), the
dashboard's `avgPriceUSD` is `null` exactly when the simulated `solTotalSOL`
accumulator is 0, and the division `solTotalCashbackUSD / solTotalSOL` is
performed only under `solTotalSOL > 0`, so it never divides by zero. -/
theorem dashboard_avgPrice_null_iff (txs : List Tx) (year month : ℤ)
    (rate apr : ℚ) (priceOf : String → Option ℚ) (todayStr : String)
    (hamounts : ∀ t ∈ txs, 0 < t.amount)
    (hprices : ∀ s p, priceOf s = some p → 0 < p)
    (hrate : 0 ≤ rate) :
    ((dashboardEndpoint txs year month rate apr priceOf todayStr).solAvgPriceUSD = none
        ↔ (solSimRun rate priceOf (filterByMonth txs year month)).totalSOL = 0) ∧
    ((solSimRun rate priceOf (filterByMonth txs year month)).totalSOL ≠ 0 →
        0 < (solSimRun rate priceOf (filterByMonth txs year month)).totalSOL ∧
        (dashboardEndpoint txs year month rate apr priceOf todayStr).solAvgPriceUSD
          = some (moneyRound
              ((solSimRun rate priceOf (filterByMonth txs year month)).totalCashbackUSD
                / (solSimRun rate priceOf (filterByMonth txs year month)).totalSOL))) := by
  have hnn : 0 ≤ (solSimRun rate priceOf (filterByMonth txs year month)).totalSOL := by
    refine solSim_totalSOL_nonneg rate priceOf hrate hprices _ _ ?_ le_rfl
    exact fun t ht => hamounts t (List.mem_of_mem_filter ht)
  constructor
  · constructor
    · intro hnone
      by_contra hne
      have hpos : 0 < (solSimRun rate priceOf (filterByMonth txs year month)).totalSOL :=
        lt_of_le_of_ne hnn (Ne.symm hne)
      simp [dashboardEndpoint, hpos] at hnone
    · intro hzero
      simp [dashboardEndpoint, hzero]
  · intro hne
    have hpos : 0 < (solSimRun rate priceOf (filterByMonth txs year month)).totalSOL :=
      lt_of_le_of_ne hnn (Ne.symm hne)
    exact ⟨hpos, by simp [dashboardEndpoint, hpos]⟩

/-- Witness for C4: one in-month $100 purchase at 3% with a resolved price of
$10 yields `solTotalSOL = 0.3 ≠ 0` and `avgPriceUSD = round2(3 / 0.3) = 10`. -/
theorem dashboard_avgPrice_null_iff_witness :
    (dashboardEndpoint [⟨"a", "2026-01-03", "x", none, 100⟩] 2026 1 (3/100) (473/10000)
        (fun s => if s = "2026-01-03" then some 10 else none) "2026-02-01").solAvgPriceUSD
      = some (moneyRound
          ((solSimRun (3/100) (fun s => if s = "2026-01-03" then some 10 else none)
              (filterByMonth [⟨"a", "2026-01-03", "x", none, 100⟩] 2026 1)).totalCashbackUSD
            / (solSimRun (3/100) (fun s => if s = "2026-01-03" then some 10 else none)
              (filterByMonth [⟨"a", "2026-01-03", "x", none, 100⟩] 2026 1)).totalSOL)) := by
  have htx : txInMonth ⟨"a", "2026-01-03", "x", none, 100⟩ 2026 1 = true := by decide
  have hsol : (solSimRun (3/100) (fun s => if s = "2026-01-03" then some 10 else none)
      (filterByMonth [⟨"a", "2026-01-03", "x", none, 100⟩] 2026 1)).totalSOL ≠ 0 := by
    simp only [solSimRun, solSimStep, filterByMonth, List.filter, htx, List.foldl]
    norm_num [moneyRound, jsRound]
  refine (dashboard_avgPrice_null_iff [⟨"a", "2026-01-03", "x", none, 100⟩] 2026 1
    (3/100) (473/10000) (fun s => if s = "2026-01-03" then some 10 else none) "2026-02-01"
    (by intro t ht; have : t = ⟨"a", "2026-01-03", "x", none, 100⟩ := by simpa using ht
        rw [this]; norm_num)
    ?_ (by norm_num)).2 hsol |>.2
  intro s p hp
  by_cases hs : s = "2026-01-03"
  · rw [hs] at hp
    simp at hp
    rw [← hp]
    norm_num
  · simp [hs] at hp

/-! ## Claim C5 -/

theorem deleteEndpoint_nil (id : String) : deleteEndpoint [] id = ([], none) := by
  simp [deleteEndpoint, List.findIdx?_nil]

theorem deleteEndpoint_cons (t : Tx) (txs : List Tx) (id : String) :
    deleteEndpoint (t :: txs) id =
      if t.id = id then (txs, some id)
      else (t :: (deleteEndpoint txs id).1, (deleteEndpoint txs id).2) := by
  by_cases h : t.id = id
  · simp [deleteEndpoint, List.findIdx?_cons, h]
  · simp only [deleteEndpoint, List.findIdx?_cons, List.findIdx?_succ, h, decide_False,
      if_neg, if_false]
    cases hf : txs.findIdx? (fun t => t.id = id) with
    | none => simp [hf]
    | some i => simp [hf, List.eraseIdx]

theorem deleteEndpoint_absent (id : String) :
    ∀ (txs : List Tx), (∀ t ∈ txs, t.id ≠ id) → deleteEndpoint txs id = (txs, none)
  | [], _ => deleteEndpoint_nil id
  | t :: rest, h => by
    rw [deleteEndpoint_cons, if_neg (h t (by simp)),
      deleteEndpoint_absent id rest (fun x hx => h x (by simp [hx]))]

theorem deleteEndpoint_present (id : String) :
    ∀ (txs : List Tx), (∃ t ∈ txs, t.id = id) →
      deleteEndpoint txs id = (removeFirstById txs id, some id) ∧
      (removeFirstById txs id).length + 1 = txs.length
  | [], h => by simp at h
  | t :: rest, h => by
    by_cases ht : t.id = id
    · rw [deleteEndpoint_cons, if_pos ht]
      constructor
      · simp [removeFirstById, ht]
      · simp [removeFirstById, ht]
    · have hrest : ∃ x ∈ rest, x.id = id := by
        rcases h with ⟨x, hx, hxid⟩
        rcases List.mem_cons.mp hx with rfl | hxr
        · exact absurd hxid ht
        · exact ⟨x, hxr, hxid⟩
      have ih := deleteEndpoint_present id rest hrest
      rw [deleteEndpoint_cons, if_neg ht]
      constructor
      · simp [removeFirstById, ht, ih.1]
      · simpa [removeFirstById, ht] using ih.2

theorem removeFirstById_no_id (id : String) :
    ∀ (txs : List Tx), (txs.map Tx.id).Nodup →
      ∀ t ∈ removeFirstById txs id, t.id ≠ id
  | [], _, t, ht => by simp [removeFirstById] at ht
  | x :: rest, hnd, t, ht => by
    rw [List.map_cons, List.nodup_cons] at hnd
    by_cases hx : x.id = id
    · rw [removeFirstById, if_pos hx] at ht
      intro hts
      exact hnd.1 (hx ▸ hts ▸ List.mem_map.mpr ⟨t, ht, rfl⟩)
    · rw [removeFirstById, if_neg hx] at ht
      rcases List.mem_cons.mp ht with rfl | htr
      · exact hx
      · exact removeFirstById_no_id id rest hnd.2 t htr

/-- Claim C5: on a stored list with distinct ids (the data-model invariant),
deleting an id that is present removes exactly one entry — the first with that
id — and answers `200 {ok:true, deletedId}`; deleting an absent id answers 404
and leaves the store untouched, so a second delete of the same id yields 404
with the store unchanged. -/
theorem delete_transaction_semantics (txs : List Tx) (id : String)
    (hnd : (txs.map Tx.id).Nodup) :
    ((∀ t ∈ txs, t.id ≠ id) → deleteEndpoint txs id = (txs, none)) ∧
    ((∃ t ∈ txs, t.id = id) →
      deleteEndpoint txs id = (removeFirstById txs id, some id) ∧
      (removeFirstById txs id).length + 1 = txs.length ∧
      deleteEndpoint (removeFirstById txs id) id = (removeFirstById txs id, none)) := by
  refine ⟨deleteEndpoint_absent id txs, fun h => ?_⟩
  have hp := deleteEndpoint_present id txs h
  exact ⟨hp.1, hp.2, deleteEndpoint_absent id _ (removeFirstById_no_id id txs hnd)⟩

/-- Witness for C5: deleting id "a" from a two-element store removes exactly
the first entry and a second delete of "a" is a 404 no-op. -/
theorem delete_transaction_semantics_witness :
    deleteEndpoint [⟨"a", "2026-01-03", "x", none, 1⟩, ⟨"b", "2026-01-04", "y", none, 2⟩] "a"
        = (removeFirstById [⟨"a", "2026-01-03", "x", none, 1⟩,
            ⟨"b", "2026-01-04", "y", none, 2⟩] "a", some "a") ∧
      (removeFirstById [⟨"a", "2026-01-03", "x", none, 1⟩,
          ⟨"b", "2026-01-04", "y", none, 2⟩] "a").length + 1
        = ([⟨"a", "2026-01-03", "x", none, 1⟩, ⟨"b", "2026-01-04", "y", none, 2⟩] : List Tx).length ∧
      deleteEndpoint (removeFirstById [⟨"a", "2026-01-03", "x", none, 1⟩,
          ⟨"b", "2026-01-04", "y", none, 2⟩] "a") "a"
        = (removeFirstById [⟨"a", "2026-01-03", "x", none, 1⟩,
            ⟨"b", "2026-01-04", "y", none, 2⟩] "a", none) :=
  (delete_transaction_semantics
      [⟨"a", "2026-01-03", "x", none, 1⟩, ⟨"b", "2026-01-04", "y", none, 2⟩] "a"
      (by decide)).2
    ⟨⟨"a", "2026-01-03", "x", none, 1⟩, List.mem_cons_self _ _, rfl⟩

/-! ## Claim C6 -/

theorem validCategory_ne_empty (c : Option String) : validCategory c ≠ "" := by
  rcases c with _ | s
  · simp [validCategory]
  · rw [validCategory]
    by_cases h : jsTrim s = "" <;> simp [h]

theorem categoryOrDefault_validCategory (c : Option String) :
    categoryOrDefault (some (validCategory c)) = validCategory c := by
  rw [categoryOrDefault, if_neg (validCategory_ne_empty c)]

/-- Claim C6: a valid posted transaction (non-empty trimmed description,
positive amount, parseable YYYY-MM-DD date) is accepted, and a subsequent
`GET /api/monthly` for that date's year and month includes it exactly once,
with the same amount, date and category (`"Uncategorized"` when absent). -/
theorem post_monthly_roundtrip (txs : List Tx) (body : PostBody) (newId : String)
    (rate : ℚ) (d : YMD)
    (hdesc : jsTrim body.description ≠ "")
    (hamt : 0 < body.amount)
    (hdate : dateParse body.date = some d)
    (hfresh : ∀ t ∈ txs, t.id ≠ newId) :
    ∃ newTx : Tx,
      postTransaction txs body newId = .ok (txs ++ [newTx], newTx) ∧
      ((monthlyEndpoint (txs ++ [newTx]) (d.year : ℤ) (d.month : ℤ) rate).transactions.filter
          (fun e => e.id = newId))
        = [{ id := newId, date := body.date, description := jsTrim body.description,
             category := validCategory body.category, amount := body.amount,
             cashback := calculateCashback body.amount rate }] := by
  refine ⟨⟨newId, body.date, jsTrim body.description, some (validCategory body.category),
    body.amount⟩, ?_, ?_⟩
  · rw [postTransaction, if_neg hdesc, if_neg (not_le.mpr hamt), hdate]
  · have hin : txInMonth ⟨newId, body.date, jsTrim body.description,
        some (validCategory body.category), body.amount⟩ ((d.year : ℤ)) ((d.month : ℤ))
        = true := by
      simp [txInMonth, hdate]
    have hfilter : filterByMonth (txs ++ [⟨newId, body.date, jsTrim body.description,
        some (validCategory body.category), body.amount⟩]) (d.year : ℤ) (d.month : ℤ)
        = filterByMonth txs (d.year : ℤ) (d.month : ℤ)
          ++ [⟨newId, body.date, jsTrim body.description,
              some (validCategory body.category), body.amount⟩] := by
      rw [filterByMonth, List.filter_append]
      simp [filterByMonth, List.filter, hin]
    simp only [monthlyEndpoint, hfilter, List.map_append, List.filter_append]
    have hold : ((filterByMonth txs (d.year : ℤ) (d.month : ℤ)).map (fun t =>
        ({ id := t.id, date := t.date, description := t.description,
           category := categoryOrDefault t.category, amount := t.amount,
           cashback := calculateCashback t.amount rate } : MonthlyTx))).filter
          (fun e => e.id = newId) = [] := by
      rw [List.filter_eq_nil_iff]
      intro e he
      rcases List.mem_map.mp he with ⟨t, ht, rfl⟩
      simpa using hfresh t (List.mem_of_mem_filter ht)
    rw [hold]
    simp [categoryOrDefault_validCategory]

/-- Witness for C6: posting `{date:"2026-01-03", description:"Gym", amount:100}`
to an empty store and fetching `/monthly?year=2026&month=1` reports it exactly
once with category "Uncategorized". -/
theorem post_monthly_roundtrip_witness :
    ∃ newTx : Tx,
      postTransaction [] ⟨"2026-01-03", "Gym", none, 100⟩ "id1" = .ok ([] ++ [newTx], newTx) ∧
      ((monthlyEndpoint ([] ++ [newTx]) ((2026 : ℕ) : ℤ) ((1 : ℕ) : ℤ)
          (3/100)).transactions.filter (fun e => e.id = "id1"))
        = [{ id := "id1", date := "2026-01-03",
             description := jsTrim "Gym",
             category := validCategory none, amount := 100,
             cashback := calculateCashback 100 (3/100) }] :=
  post_monthly_roundtrip [] ⟨"2026-01-03", "Gym", none, 100⟩ "id1" (3/100) ⟨2026, 1, 3⟩
    (by decide) (by norm_num) (by decide) (by simp)

/-! ## Claims C7 and C9 -/

theorem cacheHit_none_cases (cache : String → Option ℚ) (d : String)
    (h : cacheHit cache d = none) : cache d = none ∨ cache d = some 0 := by
  rw [cacheHit] at h
  cases hc : cache d with
  | none => exact Or.inl rfl
  | some p =>
    rw [hc] at h
    by_cases hp : p = 0
    · exact Or.inr (by rw [hp])
    · simp [hp] at h

/-- Claim C7 (amended): the resolver returns a cached price immediately and
without calling the external API when the cached value is truthy (nonzero); on
a miss — no entry, or a falsy cached 0 — it fetches, and on success stores the
price under the date and returns it, while on failure it returns null without
throwing and leaves the cache unchanged. -/
theorem resolver_cache_behavior (cache : String → Option ℚ) (dateString : String)
    (fetchOutcome : Option ℚ) :
    (∀ p, cache dateString = some p → p ≠ 0 →
        getSolPriceForDate cache dateString fetchOutcome
          = { price := some p, cache := cache, apiCalled := false }) ∧
    (cacheHit cache dateString = none → ∀ q, fetchOutcome = some q →
        (getSolPriceForDate cache dateString fetchOutcome).price = some q ∧
        (getSolPriceForDate cache dateString fetchOutcome).cache dateString = some q ∧
        (getSolPriceForDate cache dateString fetchOutcome).apiCalled = true) ∧
    (cacheHit cache dateString = none → fetchOutcome = none →
        getSolPriceForDate cache dateString fetchOutcome
          = { price := none, cache := cache, apiCalled := true }) := by
  refine ⟨?_, ?_, ?_⟩
  · intro p hp hp0
    have hhit : cacheHit cache dateString = some p := by simp [cacheHit, hp, hp0]
    simp [getSolPriceForDate, hhit]
  · intro hmiss q hq
    refine ⟨?_, ?_, ?_⟩ <;> simp [getSolPriceForDate, hmiss, hq]
  · intro hmiss hq
    simp [getSolPriceForDate, hmiss, hq]

/-- Witness for the amended C7: a cached nonzero price is returned as-is with
no API call, even when the API would have answered differently. -/
theorem resolver_cache_behavior_witness :
    getSolPriceForDate (fun d => if d = "2024-01-02" then some 5 else none)
        "2024-01-02" (some 7)
      = { price := some 5,
          cache := fun d => if d = "2024-01-02" then some 5 else none,
          apiCalled := false } :=
  (resolver_cache_behavior (fun d => if d = "2024-01-02" then some 5 else none)
      "2024-01-02" (some 7)).1 5 (by simp) (by norm_num)

/-- Counterexample for C7 as stated: the date "2024-01-02" HAS a cache entry
(price 0), yet the resolver does not return the cached price without calling
the external API — the falsy 0 is treated as a miss, the API is called, and its
answer 7 is returned instead. -/
theorem resolver_zero_price_counterexample :
    ((fun d => if d = "2024-01-02" then some (0 : ℚ) else none) "2024-01-02" = some 0) ∧
    (getSolPriceForDate (fun d => if d = "2024-01-02" then some (0 : ℚ) else none)
        "2024-01-02" (some 7)).apiCalled = true ∧
    (getSolPriceForDate (fun d => if d = "2024-01-02" then some (0 : ℚ) else none)
        "2024-01-02" (some 7)).price = some 7 := by
  have hhit : cacheHit (fun d => if d = "2024-01-02" then some (0 : ℚ) else none)
      "2024-01-02" = none := by simp [cacheHit]
  refine ⟨by simp, ?_, ?_⟩ <;> simp [getSolPriceForDate, hhit]

/-- Claim C9 (amended): both cache-touching operations (the historical price
resolver and `GET /api/price/sol`) never remove a cache entry and never modify
an existing entry whose price is truthy (nonzero); only absent or zero-valued
entries are written. -/
theorem price_cache_append_only (cache : String → Option ℚ) (dateString : String)
    (dateOpt : Option String) (fetchOutcome : Option ℚ) :
    (∀ d p, cache d = some p → p ≠ 0 →
        (getSolPriceForDate cache dateString fetchOutcome).cache d = some p) ∧
    (∀ d, (cache d).isSome →
        ((getSolPriceForDate cache dateString fetchOutcome).cache d).isSome) ∧
    (∀ d p, cache d = some p → p ≠ 0 →
        (priceSolEndpoint cache dateOpt fetchOutcome).cache d = some p) ∧
    (∀ d, (cache d).isSome →
        ((priceSolEndpoint cache dateOpt fetchOutcome).cache d).isSome) := by
  have hres : ∀ d, ((getSolPriceForDate cache dateString fetchOutcome).cache d = cache d)
      ∨ (d = dateString ∧ cacheHit cache dateString = none ∧
          ((getSolPriceForDate cache dateString fetchOutcome).cache d).isSome) := by
    intro d
    cases hhit : cacheHit cache dateString with
    | some p => exact Or.inl (by simp [getSolPriceForDate, hhit])
    | none =>
      cases hf : fetchOutcome with
      | none => exact Or.inl (by simp [getSolPriceForDate, hhit, hf])
      | some q =>
        by_cases hd : d = dateString
        · exact Or.inr ⟨hd, rfl, by simp [getSolPriceForDate, hhit, hf, hd]⟩
        · exact Or.inl (by simp [getSolPriceForDate, hhit, hf, hd])
  have hep : ∀ d, ((priceSolEndpoint cache dateOpt fetchOutcome).cache d = cache d)
      ∨ (∃ ds, dateOpt = some ds ∧ d = ds ∧ cacheHit cache ds = none ∧
          ((priceSolEndpoint cache dateOpt fetchOutcome).cache d).isSome) := by
    intro d
    cases hdo : dateOpt with
    | none => exact Or.inl (by simp [priceSolEndpoint, hdo])
    | some ds =>
      by_cases hv : (dateParse ds).isNone
      · exact Or.inl (by simp [priceSolEndpoint, hdo, hv])
      · cases hhit : cacheHit cache ds with
        | some p => exact Or.inl (by simp [priceSolEndpoint, hdo, hv, hhit])
        | none =>
          cases hf : fetchOutcome with
          | none => exact Or.inl (by simp [priceSolEndpoint, hdo, hv, hhit, hf])
          | some q =>
            by_cases hd : d = ds
            · exact Or.inr ⟨ds, rfl, hd,
                hhit, by simp [priceSolEndpoint, hdo, hv, hhit, hf, hd]⟩
            · exact Or.inl (by simp [priceSolEndpoint, hdo, hv, hhit, hf, hd])
  refine ⟨?_, ?_, ?_, ?_⟩
  · intro d p hd hp0
    rcases hres d with h | ⟨rfl, hmiss, _⟩
    · rw [h, hd]
    · rcases cacheHit_none_cases cache d hmiss with h0 | h0 <;> rw [hd] at h0
      · exact absurd h0 (by simp)
      · exact absurd (by simpa using h0) hp0
  · intro d hd
    rcases hres d with h | ⟨_, _, hsome⟩
    · rw [h]; exact hd
    · exact hsome
  · intro d p hd hp0
    rcases hep d with h | ⟨ds, _, rfl, hmiss, _⟩
    · rw [h, hd]
    · rcases cacheHit_none_cases cache d hmiss with h0 | h0 <;> rw [hd] at h0
      · exact absurd h0 (by simp)
      · exact absurd (by simpa using h0) hp0
  · intro d hd
    rcases hep d with h | ⟨_, _, _, _, hsome⟩
    · rw [h]; exact hd
    · exact hsome

/-- Witness for the amended C9: resolving a missing date stores it while the
pre-existing nonzero entry for another date survives unchanged. -/
theorem price_cache_append_only_witness :
    (getSolPriceForDate (fun d => if d = "2024-01-02" then some 5 else none)
        "2024-01-03" (some 7)).cache "2024-01-02" = some 5 :=
  (price_cache_append_only (fun d => if d = "2024-01-02" then some 5 else none)
      "2024-01-03" none (some 7)).1 "2024-01-02" 5 (by simp) (by norm_num)

/-- Counterexample for C9 as stated: the cache maps "2024-01-02" to the (falsy)
price 0; one resolver call for that date overwrites the existing entry with the
freshly fetched price 7, so an existing cached entry IS modified. -/
theorem price_cache_modified_counterexample :
    ((fun d => if d = "2024-01-02" then some (0 : ℚ) else none) "2024-01-02" = some 0) ∧
    (getSolPriceForDate (fun d => if d = "2024-01-02" then some (0 : ℚ) else none)
        "2024-01-02" (some 7)).cache "2024-01-02" = some 7 := by
  have hhit : cacheHit (fun d => if d = "2024-01-02" then some (0 : ℚ) else none)
      "2024-01-02" = none := by simp [cacheHit]
  exact ⟨by simp, by simp [getSolPriceForDate, hhit]⟩

/-! ## Claim C8 -/

/-- Per-transaction contribution to the cumulative staking accrual, stated the
way the claim reads: nothing for future-dated transactions or unresolvable
prices; otherwise `solBought * APR * (daysStaked / 365)` with
`solBought = cashbackUSD / price` and
`daysStaked = max(0, floor((today - txDate) / 1 day))`. -/
def accrualContribution (rate apr : ℚ) (priceOf : String → Option ℚ)
    (todayNum : Nat) (t : Tx) : ℚ :=
  match dateParse t.date, priceOf t.date with
  | some d, some price =>
    if dayNumber d ≤ todayNum then
      (moneyRound (t.amount * rate) / price) * apr
        * (((todayNum - dayNumber d : Nat) : ℚ) / 365)
    else 0
  | _, _ => 0

/-- A transaction counted in the cumulative loop's skip counter: not
future-dated, but its price does not resolve. -/
def accrualSkipP (priceOf : String → Option ℚ) (todayNum : Nat) (t : Tx) : Bool :=
  (match dateParse t.date with
   | some d => decide (dayNumber d ≤ todayNum)
   | none => false) && (priceOf t.date).isNone

theorem accrualRun_general (rate apr : ℚ) (priceOf : String → Option ℚ)
    (todayNum : Nat) :
    ∀ (txs : List Tx) (acc : Accrual), (∀ t ∈ txs, (dateParse t.date).isSome) →
      (txs.foldl (accrualStep rate apr priceOf todayNum) acc).earnedSOL
          = acc.earnedSOL + (txs.map (accrualContribution rate apr priceOf todayNum)).sum ∧
      (txs.foldl (accrualStep rate apr priceOf todayNum) acc).skipped
          = acc.skipped + txs.countP (accrualSkipP priceOf todayNum)
  | [], acc, _ => by simp
  | t :: rest, acc, h => by
    obtain ⟨d, hd⟩ := Option.isSome_iff_exists.mp (h t (by simp))
    by_cases htoday : todayNum < dayNumber d
    · have hstep : accrualStep rate apr priceOf todayNum acc t = acc := by
        simp [accrualStep, hd, htoday]
      have hcontrib : accrualContribution rate apr priceOf todayNum t = 0 := by
        cases hp : priceOf t.date <;>
          simp [accrualContribution, hd, hp, not_le.mpr htoday]
      have hskip : accrualSkipP priceOf todayNum t = false := by
        simp [accrualSkipP, hd, not_le.mpr htoday]
      have ih := accrualRun_general rate apr priceOf todayNum rest acc
        (fun x hx => h x (by simp [hx]))
      rw [List.foldl_cons, hstep]
      simp [ih.1, ih.2, hcontrib, hskip, List.countP_cons]
    · rw [not_lt] at htoday
      cases hp : priceOf t.date with
      | none =>
        have hstep : accrualStep rate apr priceOf todayNum acc t
            = { acc with skipped := acc.skipped + 1 } := by
          simp [accrualStep, hd, hp, not_lt.mpr htoday]
        have hcontrib : accrualContribution rate apr priceOf todayNum t = 0 := by
          simp [accrualContribution, hd, hp]
        have hskip : accrualSkipP priceOf todayNum t = true := by
          simp [accrualSkipP, hd, htoday, hp]
        have ih := accrualRun_general rate apr priceOf todayNum rest
          { acc with skipped := acc.skipped + 1 } (fun x hx => h x (by simp [hx]))
        rw [List.foldl_cons, hstep]
        constructor
        · simp [ih.1, hcontrib]
        · simp [ih.2, List.countP_cons, hskip]
          omega
      | some price =>
        have hstep : accrualStep rate apr priceOf todayNum acc t
            = { acc with earnedSOL := acc.earnedSOL +
                (moneyRound (t.amount * rate) / price) * apr
                  * (((todayNum - dayNumber d : Nat) : ℚ) / 365) } := by
          simp [accrualStep, hd, hp, not_lt.mpr htoday]
        have hcontrib : accrualContribution rate apr priceOf todayNum t
            = (moneyRound (t.amount * rate) / price) * apr
                * (((todayNum - dayNumber d : Nat) : ℚ) / 365) := by
          simp [accrualContribution, hd, hp, htoday]
        have ihskip : accrualSkipP priceOf todayNum t = false := by
          simp [accrualSkipP, hd, hp]
        have ih := accrualRun_general rate apr priceOf todayNum rest
          { acc with earnedSOL := acc.earnedSOL +
              (moneyRound (t.amount * rate) / price) * apr
                * (((todayNum - dayNumber d : Nat) : ℚ) / 365) }
          (fun x hx => h x (by simp [hx]))
        rw [List.foldl_cons, hstep]
        constructor
        · rw [ih.1]
          simp [hcontrib, add_assoc]
        · simp [ih.2, List.countP_cons, ihskip]

/-- Claim C8: the cumulative staking accrual iterates ALL stored transactions
(not only the target month's) whose date is on or before today; each
transaction with a resolvable price accrues
`(cashbackUSD / price) * APR * (daysStaked / 365)` with
`daysStaked = max(0, floor((today - txDate) / 1 day))`, and transactions whose
price does not resolve are skipped and counted instead of contributing.
Stated under the data-model invariant that stored dates are parseable. -/
theorem staking_accrual_spec (txs : List Tx) (year month : ℤ) (rate apr : ℚ)
    (priceOf : String → Option ℚ) (todayStr : String) (dToday : YMD)
    (hdates : ∀ t ∈ txs, (dateParse t.date).isSome)
    (htoday : dateParse todayStr = some dToday) :
    (accrualRun rate apr priceOf (dayNumber dToday) txs).earnedSOL
        = (txs.map (accrualContribution rate apr priceOf (dayNumber dToday))).sum ∧
    (accrualRun rate apr priceOf (dayNumber dToday) txs).skipped
        = txs.countP (accrualSkipP priceOf (dayNumber dToday)) ∧
    (dashboardEndpoint txs year month rate apr priceOf todayStr).earnedSOL
        = round6 ((txs.map (accrualContribution rate apr priceOf (dayNumber dToday))).sum) ∧
    (dashboardEndpoint txs year month rate apr priceOf todayStr).skippedToDate
        = txs.countP (accrualSkipP priceOf (dayNumber dToday)) := by
  have h := accrualRun_general rate apr priceOf (dayNumber dToday) txs ⟨0, 0⟩ hdates
  have h1 : (accrualRun rate apr priceOf (dayNumber dToday) txs).earnedSOL
      = (txs.map (accrualContribution rate apr priceOf (dayNumber dToday))).sum := by
    rw [accrualRun, h.1]
    simp
  have h2 : (accrualRun rate apr priceOf (dayNumber dToday) txs).skipped
      = txs.countP (accrualSkipP priceOf (dayNumber dToday)) := by
    rw [accrualRun, h.2]
    simp
  refine ⟨h1, h2, ?_, ?_⟩ <;> simp [dashboardEndpoint, htoday, h1, h2]

/-- Witness for C8: a single past transaction with a resolved purchase price
accrues per the formula; today's 29-day distance from the purchase appears as
`daysStaked = 29`. -/
theorem staking_accrual_spec_witness :
    (accrualRun (3/100) (473/10000)
          (fun s => if s = "2026-01-03" then some 10 else none)
          (dayNumber ⟨2026, 2, 1⟩) [⟨"a", "2026-01-03", "x", none, 100⟩]).earnedSOL
        = (([⟨"a", "2026-01-03", "x", none, 100⟩] : List Tx).map
            (accrualContribution (3/100) (473/10000)
              (fun s => if s = "2026-01-03" then some 10 else none)
              (dayNumber ⟨2026, 2, 1⟩))).sum ∧
      (accrualRun (3/100) (473/10000)
          (fun s => if s = "2026-01-03" then some 10 else none)
          (dayNumber ⟨2026, 2, 1⟩) [⟨"a", "2026-01-03", "x", none, 100⟩]).skipped
        = ([⟨"a", "2026-01-03", "x", none, 100⟩] : List Tx).countP
            (accrualSkipP (fun s => if s = "2026-01-03" then some 10 else none)
              (dayNumber ⟨2026, 2, 1⟩)) := by
  have h := staking_accrual_spec [⟨"a", "2026-01-03", "x", none, 100⟩] 2026 1
    (3/100) (473/10000) (fun s => if s = "2026-01-03" then some 10 else none)
    "2026-02-01" ⟨2026, 2, 1⟩ (by decide) (by decide)
  exact ⟨h.1, h.2.1⟩

/-! ## Claim C10 -/

/-- A supplied year parameter the dashboard rejects: a non-empty string whose
`parseInt` is NaN or whose `parseInt` value is outside 2000–2100. -/
def yearParamBad (p : Option String) : Bool :=
  match p with
  | none => false
  | some s =>
    if s = "" then false
    else
      match jsParseInt s with
      | none => true
      | some v => decide (v < 2000) || decide (2100 < v)

/-- A supplied month parameter the dashboard rejects: a non-empty string whose
`parseInt` is NaN or whose `parseInt` value is outside 1–12. -/
def monthParamBad (p : Option String) : Bool :=
  match p with
  | none => false
  | some s =>
    if s = "" then false
    else
      match jsParseInt s with
      | none => true
      | some v => decide (v < 1) || decide (12 < v)

/-- The year/month value the dashboard proceeds with: the default for an
absent or empty parameter, else the `parseInt` of the supplied string. -/
def resolvedParam (p : Option String) (dflt : ℤ) : ℤ :=
  match p with
  | none => dflt
  | some s => if s = "" then dflt else (jsParseInt s).getD dflt

/-- Claim C10 (amended): `GET /api/dashboard` responds 400 exactly when
`parseInt` of a supplied non-empty year is NaN or a value outside
[2000, 2100] — and similarly for month outside [1, 12] — validating the year
first; any other supplied value is accepted as its `parseInt` value (so
fractional or trailing-garbage strings such as "12.9" are truncated to 12
rather than rejected, and hexadecimal strings such as "0x7D0" parse as 2000),
and an absent or empty parameter defaults to the current year/month. -/
theorem monthCheck_bad (mp : Option String) (now : YMD) (y : ℤ)
    (hmbad : monthParamBad mp = true) :
    monthCheck mp now y = .error "Invalid month. Must be between 1 and 12" := by
  rcases mp with _ | s
  · simp [monthParamBad] at hmbad
  · by_cases hs : s = ""
    · simp [monthParamBad, hs] at hmbad
    · cases hjs : jsParseInt s with
      | none => simp [monthCheck, paramValue, hs, hjs]
      | some v =>
        have hv : v < 1 ∨ 12 < v := by
          simpa [monthParamBad, hs, hjs, decide_eq_true_eq] using hmbad
        simp [monthCheck, paramValue, hs, hjs, hv]

theorem monthCheck_ok (mp : Option String) (now : YMD) (y : ℤ)
    (hm : 1 ≤ now.month ∧ now.month ≤ 12)
    (hmok : monthParamBad mp = false) :
    monthCheck mp now y = .ok (y, resolvedParam mp (now.month : ℤ)) := by
  have hmz : ¬ ((now.month : ℤ) < 1 ∨ 12 < (now.month : ℤ)) := by
    push_neg
    exact ⟨by exact_mod_cast hm.1, by exact_mod_cast hm.2⟩
  rcases mp with _ | s
  · simp [monthCheck, paramValue, resolvedParam, hmz]
    omega
  · by_cases hs : s = ""
    · simp [monthCheck, paramValue, resolvedParam, hs, hmz]
      omega
    · cases hjs : jsParseInt s with
      | none => simp [monthParamBad, hs, hjs] at hmok
      | some v =>
        have hv : ¬ (v < 1 ∨ 12 < v) := by
          intro hcon
          rw [show monthParamBad (some s) = true from by
            simp only [monthParamBad, hs, if_neg hs, hjs]
            rcases hcon with h | h <;> simp [h]] at hmok
          exact absurd hmok (by simp)
        simp [monthCheck, paramValue, resolvedParam, hs, hjs, hv]

theorem parseYearMonth_year_ok (yp mp : Option String) (now : YMD)
    (hy : 2000 ≤ now.year ∧ now.year ≤ 2100)
    (hyok : yearParamBad yp = false) :
    parseYearMonth yp mp now = monthCheck mp now (resolvedParam yp (now.year : ℤ)) := by
  have hyz : ¬ ((now.year : ℤ) < 2000 ∨ 2100 < (now.year : ℤ)) := by
    push_neg
    exact ⟨by exact_mod_cast hy.1, by exact_mod_cast hy.2⟩
  rcases yp with _ | s
  · simp [parseYearMonth, paramValue, resolvedParam, hyz]
    omega
  · by_cases hs : s = ""
    · simp [parseYearMonth, paramValue, resolvedParam, hs, hyz]
      omega
    · cases hjs : jsParseInt s with
      | none => simp [yearParamBad, hs, hjs] at hyok
      | some v =>
        have hv : ¬ (v < 2000 ∨ 2100 < v) := by
          intro hcon
          rw [show yearParamBad (some s) = true from by
            simp only [yearParamBad, hs, if_neg hs, hjs]
            rcases hcon with h | h <;> simp [h]] at hyok
          exact absurd hyok (by simp)
        simp [parseYearMonth, paramValue, resolvedParam, hs, hjs, hv]

theorem parseYearMonth_year_bad (yp mp : Option String) (now : YMD)
    (hybad : yearParamBad yp = true) :
    parseYearMonth yp mp now = .error "Invalid year. Must be between 2000 and 2100" := by
  rcases yp with _ | s
  · simp [yearParamBad] at hybad
  · by_cases hs : s = ""
    · simp [yearParamBad, hs] at hybad
    · cases hjs : jsParseInt s with
      | none => simp [parseYearMonth, paramValue, hs, hjs]
      | some v =>
        have hv : v < 2000 ∨ 2100 < v := by
          simpa [yearParamBad, hs, hjs, decide_eq_true_eq] using hybad
        simp [parseYearMonth, paramValue, hs, hjs, hv]

theorem dashboard_params_spec (yp mp : Option String) (now : YMD)
    (hy : 2000 ≤ now.year ∧ now.year ≤ 2100) (hm : 1 ≤ now.month ∧ now.month ≤ 12) :
    (yearParamBad yp = true →
        dashboardParams yp mp now
          = .badRequest "Invalid year. Must be between 2000 and 2100") ∧
    (yearParamBad yp = false → monthParamBad mp = true →
        dashboardParams yp mp now
          = .badRequest "Invalid month. Must be between 1 and 12") ∧
    (yearParamBad yp = false → monthParamBad mp = false →
        dashboardParams yp mp now
          = .proceed (resolvedParam yp (now.year : ℤ)) (resolvedParam mp (now.month : ℤ))) := by
  refine ⟨?_, ?_, ?_⟩
  · intro hybad
    rw [dashboardParams, parseYearMonth_year_bad yp mp now hybad]
  · intro hyok hmbad
    rw [dashboardParams, parseYearMonth_year_ok yp mp now hy hyok,
      monthCheck_bad mp now _ hmbad]
  · intro hyok hmok
    rw [dashboardParams, parseYearMonth_year_ok yp mp now hy hyok,
      monthCheck_ok mp now _ hm hmok]

/-- Witness for the amended C10: the hexadecimal year "0x7D0" (2000) with
month "0xC" (12) is accepted and proceeds with (2000, 12), exercising
`parseInt`'s no-radix hexadecimal branch. -/
theorem dashboard_params_spec_witness :
    dashboardParams (some "0x7D0") (some "0xC") ⟨2026, 5, 1⟩
      = DashboardParamResult.proceed 2000 12 := by
  have h := (dashboard_params_spec (some "0x7D0") (some "0xC") ⟨2026, 5, 1⟩
    (by constructor <;> norm_num) (by constructor <;> norm_num)).2.2
    (by decide) (by decide)
  rw [h]
  decide

/-- Counterexample for C10 as stated: the supplied month "12.9" denotes the
number 12.9, which lies outside [1, 12] and is not an integer, yet the
dashboard does NOT reject it with 400 — `parseInt` truncates it to 12 and the
request proceeds. -/
theorem dashboard_params_fractional_counterexample :
    dashboardParams (some "2026") (some "12.9") ⟨2026, 5, 1⟩
      = DashboardParamResult.proceed 2026 12 := by decide

end FinanceTracker
